import Mathlib

/-!
# Verification of the ODP three-tier RAG pipeline

Shallow embedding of the bot pipeline of the `odp` repository
(`src/bot/services/*.py`, `src/vendors/*/chat_service.py`,
`src/models/odp_deal_dynamic_fact.py`) and proofs about it.

Python strings are modelled as Lean `String`; Python `None`-able values as
`Option`; the database tables as explicit lists of rows threaded through the
functions; external calls (OpenAI embeddings, LLM chat completions, the
pgvector `<=>` distance operator) as oracle parameters, with fallible LLM
calls modelled as `Except Unit String` values.  All definitions are
executable.
-/

set_option maxRecDepth 16384

namespace ODP

/-! ## Python string primitives

Helpers mirroring the Python `str` operations used by the services:
`lower`, `strip`, `lstrip(chars)`, `find`, `in` (substring), `startswith`,
`split`, `"sep".join`, `replace`, `title`, and `re.sub` character filters.
All operate on `String.data` (lists of characters).
-/

/-- Whitespace test matching Python `str.strip()` / `\s` for the ASCII
whitespace characters that occur in this codebase. -/
def pyWS (c : Char) : Bool :=
  c = ' ' ∨ c = '\t' ∨ c = '\n' ∨ c = '\r'

/-- Python `str.lower()` (ASCII). -/
def pyLower (s : String) : String :=
  ⟨s.data.map Char.toLower⟩

/-- Python `str.lstrip()` on character lists. -/
def pyLstripL (l : List Char) : List Char :=
  l.dropWhile pyWS

/-- Python `str.rstrip()` on character lists. -/
def pyRstripL (l : List Char) : List Char :=
  (l.reverse.dropWhile pyWS).reverse

/-- Python `str.lstrip()`. -/
def pyLstrip (s : String) : String := ⟨pyLstripL s.data⟩

/-- Python `str.rstrip()`. -/
def pyRstrip (s : String) : String := ⟨pyRstripL s.data⟩

/-- Python `str.strip()`. -/
def pyStrip (s : String) : String := ⟨pyRstripL (pyLstripL s.data)⟩

/-- Python `str.lstrip(chars)`: drop leading characters from the set. -/
def pyLstripChars (chars : List Char) (s : String) : String :=
  ⟨s.data.dropWhile (fun c => chars.contains c)⟩

/-- Python `str.strip(chars)`: drop characters of the set from both ends. -/
def pyStripChars (chars : List Char) (s : String) : String :=
  ⟨((s.data.dropWhile (chars.contains ·)).reverse.dropWhile
      (chars.contains ·)).reverse⟩

/-- `needle.isPrefixOf`-based index of first occurrence: Python
`hay.find(needle)` on character lists. -/
def pyFindL (hay needle : List Char) : Option Nat :=
  match hay with
  | [] => if needle = [] then some 0 else none
  | _ :: t =>
    if needle.isPrefixOf hay then some 0
    else (pyFindL t needle).map (· + 1)

/-- Python `hay.find(needle)` returning `-1` as `none`. -/
def pyFind (hay needle : String) : Option Nat :=
  pyFindL hay.data needle.data

/-- Python `needle in hay` (substring test). -/
def pyIn (needle hay : String) : Bool :=
  (pyFind hay needle).isSome

/-- Python `s.startswith(prefix)`. -/
def pyStartsWith (s pre : String) : Bool :=
  pre.data.isPrefixOf s.data

/-- Python `s[n:]`. -/
def pyDrop (s : String) (n : Nat) : String := ⟨s.data.drop n⟩

/-- Python `s[:n]`. -/
def pyTake (s : String) (n : Nat) : String := ⟨s.data.take n⟩

/-- Python `str.split()` (split on whitespace runs, no empty tokens). -/
def pySplitWS (s : String) : List String :=
  ((s.data.splitOnP pyWS).filter (· ≠ [])).map (fun l => (⟨l⟩ : String))

/-- Python `"sep".join(parts)`. -/
def pyJoin (sep : String) : List String → String
  | [] => ""
  | [x] => x
  | x :: xs => x ++ sep ++ pyJoin sep xs

/-- Python `len(s)`. -/
def pyLen (s : String) : Nat := s.data.length

/-- Python `\w` test: `[A-Za-z0-9_]`. -/
def pyWordChar (c : Char) : Bool :=
  c.isAlpha ∨ c.isDigit ∨ c = '_'

/-- Python `re.sub(r"[^\w\s]", " ", s)`. -/
def pySubNonWordToSpace (s : String) : String :=
  ⟨s.data.map (fun c => if pyWordChar c ∨ pyWS c then c else ' ')⟩

/-- Python `s.replace(old, new)` for a single-character `old`/`new`
(the only form used: `fact_key.replace("_", " ")`). -/
def pyReplaceChar (s : String) (old new : Char) : String :=
  ⟨s.data.map (fun c => if c = old then new else c)⟩

/-- Python `str.title()`: the first cased character after an uncased one is
upper-cased, subsequent cased characters lower-cased (ASCII letters). -/
def pyTitleGo : Bool → List Char → List Char
  | _, [] => []
  | prevAlpha, c :: t =>
    if c.isAlpha then
      (if prevAlpha then c.toLower else c.toUpper) :: pyTitleGo true t
    else
      c :: pyTitleGo false t

/-- Python `str.title()`. -/
def pyTitle (s : String) : String := ⟨pyTitleGo false s.data⟩

/-! ## Dynamic facts table

Rows of `odp_deal_dynamic_facts` (src/models/odp_deal_dynamic_fact.py).
The model's columns are exactly: `id` (surrogate, not modelled), `deal_id`,
`question`, `answer`, `fact_key`, `fact_value`, `embedding`,
`approval_status`, `created_at` (not read by any code under proof).
Embeddings (pgvector `vector(1536)`) are modelled as `List ℚ`.
-/

structure DynamicFact where
  deal_id : Nat
  question : Option String
  answer : Option String
  fact_key : Option String
  fact_value : Option String
  embedding : Option (List ℚ)
  approval_status : String
  deriving DecidableEq, Repr

/-- Python truthiness of an `Optional[int]` deal id (`if deal_id:`):
`None` and `0` are falsy. -/
def dealTruthy : Option Nat → Bool
  | none => false
  | some d => d ≠ 0

/-! ## FactExtractorService._upsert_fact

From src/bot/services/fact_extractor_service.py lines 190-270.  The update
branch looks up the first row with the `(deal_id, fact_key)` pair, sets
`fact_value` and `approval_status='approved'` and commits (the other
assigned names — `source_note`, `approved_by`, `approved_at`, `as_of_date` —
are not columns of `DealDynamicFact` and are plain instance attributes, so
they persist nothing).  The insert branch constructs
`DealDynamicFact(..., as_of_date=..., source_note=..., approved_by=...,
approved_at=..., created_by=...)`; none of those five keywords is a column
of the model in src/models/odp_deal_dynamic_fact.py, so SQLAlchemy's
declarative constructor raises `TypeError`, the surrounding `except` rolls
back and returns `None`, and no row is inserted.  The returned
`Option String` is the `action` field of the result dict (`none` = the
Python `None` return).
-/

def upsertFactKeyMatch (d : Nat) (k : String) (f : DynamicFact) : Bool :=
  f.deal_id = d ∧ f.fact_key = some k

def upsertFactGo (d : Nat) (k v : String) : List DynamicFact → Option (List DynamicFact)
  | [] => none
  | f :: rest =>
    if upsertFactKeyMatch d k f then
      some ({ f with fact_value := some v, approval_status := "approved" } :: rest)
    else
      (upsertFactGo d k v rest).map (f :: ·)

/-- `FactExtractorService._upsert_fact(deal_id, fact_key, fact_value, ...)`.
Returns the `action` of the result dict (`none` when the Python method
returns `None`) together with the table after the call. -/
def upsertFact (d : Nat) (k v : String) (db : List DynamicFact) :
    Option String × List DynamicFact :=
  match upsertFactGo d k v db with
  | some db' => (some "updated", db')
  | none =>
    -- insert branch: `DealDynamicFact(...)` raises TypeError (invalid
    -- keyword arguments), caught by the `except`: rollback, return None.
    (none, db)

/-! ## DealContextService.search_dynamic_kb

From src/bot/services/deal_context_service.py lines 175-273.  Two passes
over `odp_deal_dynamic_facts`:

1. pgvector cosine similarity over Q&A rows (deal-scoped when the deal id
   is truthy, `approval_status='approved'`, embedding and question non-null,
   `1 - (embedding <=> q) >= threshold`), ordered by distance ascending,
   `LIMIT top_k`, emitted as `Q:`/`A:` lines under the override header;
2. all structured `fact_key`/`fact_value` rows (approved, both non-null,
   deal-scoped only when the deal id is truthy), emitted as
   `Title Cased Key: value` lines.

The embedding model and the `<=>` operator are external services, passed in
as the oracles `embed` and `dist`.  SQL leaves the order of equal-distance
rows unspecified; the model fixes it with a deterministic insertion sort
(no claim depends on tie order).
-/

/-- Ascending insertion by a rational key (models `ORDER BY ... ASC`). -/
def insertByKey (key : α → ℚ) (a : α) : List α → List α
  | [] => [a]
  | b :: l => if key a ≤ key b then a :: b :: l else b :: insertByKey key a l

/-- Sort ascending by a rational key. -/
def sortByKey (key : α → ℚ) : List α → List α
  | [] => []
  | a :: l => insertByKey key a (sortByKey key l)

/-- Python rendering of a nullable text column inside an f-string
(`None` prints as `"None"`). -/
def optText : Option String → String
  | some s => s
  | none => "None"

/-- The WHERE clause of the pass-1 similarity query. -/
def qaRowPred (dist : List ℚ → List ℚ → ℚ) (qEmb : List ℚ)
    (dealId : Option Nat) (thr : ℚ) (f : DynamicFact) : Bool :=
  (!dealTruthy dealId || f.deal_id = dealId.getD 0) &&
    f.approval_status = "approved" && f.embedding.isSome && f.question.isSome &&
    decide (1 - dist (f.embedding.getD []) qEmb ≥ thr)

/-- The filters of the pass-2 key-value query. -/
def kvRowPred (dealId : Option Nat) (f : DynamicFact) : Bool :=
  f.approval_status = "approved" && f.fact_key.isSome && f.fact_value.isSome &&
    (!dealTruthy dealId || f.deal_id = dealId.getD 0)

/-- The fixed override header placed above team-supplied facts. -/
def teamFactsHeader : String :=
  "── TEAM-SUPPLIED FACTS (override document values below) ──"

/-- Formatting of one pass-2 row: `fact_key.replace("_", " ").title()`. -/
def kvLine (f : DynamicFact) : String :=
  pyTitle (pyReplaceChar (f.fact_key.getD "") '_' ' ') ++ ": " ++ f.fact_value.getD ""

/-- `DealContextService.search_dynamic_kb(question, deal_id, top_k,
similarity_threshold)` over table state `db`. -/
def searchDynamicKb (dist : List ℚ → List ℚ → ℚ) (embed : String → List ℚ)
    (question : String) (dealId : Option Nat) (topK : Nat) (thr : ℚ)
    (db : List DynamicFact) : String :=
  let qEmb := embed question
  let qaRows :=
    (sortByKey (fun f => dist (f.embedding.getD []) qEmb)
      (db.filter (qaRowPred dist qEmb dealId thr))).take topK
  let parts1 : List String :=
    if qaRows ≠ [] then
      teamFactsHeader ::
        qaRows.flatMap (fun f => ["Q: " ++ f.question.getD "", "A: " ++ optText f.answer, ""])
    else []
  let kvRows := db.filter (kvRowPred dealId)
  let parts2 : List String :=
    if kvRows ≠ [] then
      (if parts1 = [] then [teamFactsHeader] else []) ++ kvRows.map kvLine ++ [""]
    else []
  pyJoin "\n" (parts1 ++ parts2)

/-! ## QueryService._merge_context and AnswerGenerator._format_answer_prompt

From src/bot/services/query_service.py lines 553-560 and
src/bot/services/answer_generator.py lines 343-384.
-/

/-- `QueryService._merge_context(dynamic_context, doc_context)`:
`if dynamic_context and doc_context: return dynamic_context + "\n\n" +
doc_context; return dynamic_context or doc_context`. -/
def mergeContext (dynamicContext docContext : String) : String :=
  if dynamicContext ≠ "" ∧ docContext ≠ "" then
    dynamicContext ++ "\n\n" ++ docContext
  else if dynamicContext ≠ "" then dynamicContext else docContext

/-- `AnswerGenerator._format_answer_prompt(question, doc_context,
deal_context)` (the `doc_context` argument receives the pre-merged KB
context).  `None` for `deal_context` is modelled as `""` (both falsy). -/
def formatAnswerPrompt (question docContext dealContext : String) : String :=
  pyJoin "\n"
    ((if dealContext ≠ "" ∧ pyStrip dealContext ≠ "" then
        ["── DEAL INFORMATION ──", pyStrip dealContext, ""]
      else []) ++
     (if docContext ≠ "" ∧ pyStrip docContext ≠ "" then
        ["── KNOWLEDGE BASE (team facts first, then documents) ──",
         pyStrip docContext, ""]
      else
        ["── NO KNOWLEDGE BASE CONTEXT FOUND ──",
         "Our knowledge base returned NO information for this question.",
         "Do NOT answer from training knowledge.",
         "Say: \"We don't have [specific detail] in our knowledge base.\"",
         "Ask the user to provide the specific information.",
         ""]) ++
     ["──────────────────────────────────────",
      "Investor Question: " ++ question,
      "",
      "Answer:"])

/-! ## Anthropic ChatService._split_messages

From src/vendors/anthropic/chat_service.py lines 118-153: converts
OpenAI-style messages (system inside the array) to Anthropic's format
(top-level system string + user/assistant-only conversation).
-/

structure ChatMsg where
  role : String
  content : String
  deriving DecidableEq, Repr

/-- The loop of `_split_messages`, with the `system_parts`, `conversation`
and `pending_system` accumulators made explicit. -/
def splitGo (sysParts : List String) (conv : List ChatMsg)
    (pending : List String) : List ChatMsg → List String × List ChatMsg
  | [] => (sysParts, conv)
  | m :: rest =>
    if m.role = "system" then
      if conv = [] then splitGo (sysParts ++ [m.content]) conv pending rest
      else splitGo sysParts conv (pending ++ [m.content]) rest
    else if m.role = "user" then
      let content :=
        if pending ≠ [] then pyJoin "\n\n" pending ++ "\n\n" ++ m.content
        else m.content
      splitGo sysParts (conv ++ [⟨"user", content⟩]) [] rest
    else if m.role = "assistant" then
      splitGo sysParts (conv ++ [m]) pending rest
    else splitGo sysParts conv pending rest

/-- `ChatService._split_messages(messages)` returning
`(system_prompt, conversation)`. -/
def splitMessages (msgs : List ChatMsg) : String × List ChatMsg :=
  let sc := splitGo [] [] [] msgs
  (pyJoin "\n\n" sc.1, sc.2)

/-- Modelled from the spec: "mid-conversation system messages are prepended
to the next user message", applied after the leading system messages have
been removed.  Reference function for the refinement proof of the splitter. -/
def midConv (pending : List String) : List ChatMsg → List ChatMsg
  | [] => []
  | m :: rest =>
    if m.role = "system" then midConv (pending ++ [m.content]) rest
    else if m.role = "user" then
      (⟨"user",
        if pending ≠ [] then pyJoin "\n\n" pending ++ "\n\n" ++ m.content
        else m.content⟩ : ChatMsg) :: midConv [] rest
    else m :: midConv pending rest

/-- Modelled from the spec: "extract the leading system messages" into the
top-level system parameter and transform the remainder with `midConv`. -/
def splitMessagesSpec (msgs : List ChatMsg) : String × List ChatMsg :=
  (pyJoin "\n\n" ((msgs.takeWhile (fun m => m.role = "system")).map (·.content)),
   midConv [] (msgs.dropWhile (fun m => m.role = "system")))

/-- The roles that actually occur in messages built by this codebase. -/
def validRole (m : ChatMsg) : Bool :=
  m.role = "system" || m.role = "user" || m.role = "assistant"

/-! ## Conversation messages

Rows of `odp_conversation_messages` as returned by
`ConversationService.get_conversation_history` (oldest first).  `metadata`
is the JSON dict; the pipeline reads only the string-valued keys `type`,
`investor_question`, `original_question` (plus writes `trigger` and
`confidence`), so it is modelled as an association list of string pairs
(the unread `sources` list value is not modelled). -/

structure Msg where
  role : String
  content : String
  deal_id : Option Nat
  metadata : List (String × String)
  deriving DecidableEq, Repr

/-- Python `metadata.get(key)` (with `None`-as-`{}` already applied). -/
def mget (meta : List (String × String)) (k : String) : Option String :=
  (meta.find? (fun p => p.1 = k)).map (·.2)

/-! ## QueryEnhancementService.enhance_query

From src/bot/services/query_enhancement_service.py.  The LLM completion is
the oracle `llm : Except Unit String`; an `error` value models
`ChatService.generate_response` raising.  Note the source wraps nothing in
`try`/`except`, so an LLM error propagates out of `enhance_query`.
-/

def vagueWords : List String :=
  ["it", "that", "this", "these", "those",
   "they", "their", "them",
   "the company", "the deal", "the investment",
   "same", "also", "too"]

def enhancementCompanyNames : List String :=
  ["spacex", "anthropic", "tesla", "openai", "google", "amazon"]

def metricOnlyPatterns : List String :=
  ["revenue", "valuation", "profit", "growth", "ebitda",
   "customers", "users", "employees"]

def metricCompanyNames : List String :=
  ["spacex", "anthropic", "tesla", "openai"]

/-- `QueryEnhancementService._needs_enhancement(question)`. -/
def needsEnhancement (question : String) : Bool :=
  let ql := pyLower question
  if vagueWords.any (fun w => pyIn w ql) then true
  else
    let words := pySplitWS question
    if words.length < 4 ∧ ¬ enhancementCompanyNames.any (fun c => pyIn c ql) then
      true
    else if words.length ≤ 5 ∧ metricOnlyPatterns.any (fun m => pyIn m ql) ∧
        ¬ metricCompanyNames.any (fun c => pyIn c ql) then
      true
    else false

/-- `QueryEnhancementService.enhance_query(current_question,
conversation_history)`. -/
def enhanceQuery (llm : Except Unit String) (currentQuestion : String)
    (history : List Msg) : Except Unit String :=
  if history.length < 2 then .ok currentQuestion
  else if ¬ needsEnhancement currentQuestion then .ok currentQuestion
  else
    match llm with
    | .error e => .error e
    | .ok resp =>
      let enhanced := pyStripChars ['\''] (pyStripChars ['"'] (pyStrip resp))
      if pyLen enhanced > 0 ∧ enhanced ≠ currentQuestion then .ok enhanced
      else .ok currentQuestion

/-! ## Deal registry

`odp_deals` rows (active deals only, as produced by
`DealContextService.get_all_active_deals`). -/

structure Deal where
  deal_id : Nat
  deal_name : String
  deal_code : String
  deriving DecidableEq, Repr

/-- `DealContextService.get_deal_name(deal_id)` (`Deal.query.get`). -/
def getDealName (deals : List Deal) (dealId : Nat) : Option String :=
  (deals.find? (fun d => d.deal_id = dealId)).map (·.deal_name)

/-- `DealContextService.detect_deal_in_text(text, all_deals)`: first deal
whose lower-cased name or code is a substring of the lower-cased text. -/
def detectDealInText (text : String) (allDeals : List Deal) : Option Nat :=
  let tl := pyLower text
  (allDeals.find? (fun d =>
    pyIn (pyLower d.deal_name) tl || pyIn (pyLower d.deal_code) tl)).map (·.deal_id)

/-! ## DealContextService — atomic fact decomposition

From src/bot/services/deal_context_service.py lines 320-639.
-/

/-- Connector phrases skipped after a signal
(`_extract_value_after_signal`). -/
def valueConnectors : List String :=
  [" would be ", " is ", " are ", ": ", " - ", " = "]

/-- Clause terminators bounding the extracted value. -/
def valueTerminators : List String :=
  [" and ", ", ", "\n", ". ", " or ", "; "]

/-- `DealContextService._extract_value_after_signal(answer_lower,
answer_original, signals)`. -/
def extractValueAfterSignal (answerLower answerOriginal : String) :
    List String → Option String
  | [] => none
  | signal :: restSignals =>
    match pyFind answerLower signal with
    | none => extractValueAfterSignal answerLower answerOriginal restSignals
    | some idx =>
      let start := idx + pyLen signal
      let remainingLower0 := pyDrop answerLower start
      let remainingOriginal0 := pyDrop answerOriginal start
      -- for/else over connectors: drop the first matching connector,
      -- otherwise lstrip " :=-"
      let dropped :=
        match valueConnectors.find? (fun c => pyStartsWith remainingLower0 c) with
        | some c => (pyDrop remainingLower0 (pyLen c), pyDrop remainingOriginal0 (pyLen c))
        | none => (pyLstripChars [' ', ':', '=', '-'] remainingLower0,
                   pyLstripChars [' ', ':', '=', '-'] remainingOriginal0)
      if pyStrip dropped.2 = "" then
        extractValueAfterSignal answerLower answerOriginal restSignals
      else
        let endPos := valueTerminators.foldl (fun e term =>
          match pyFind dropped.1 term with
          | some pos => if 0 < pos ∧ pos < e then pos else e
          | none => e) (pyLen dropped.2)
        let value := pyStrip (pyTake dropped.2 endPos)
        if value ≠ "" ∧ pyLen value ≥ 2 then some value
        else extractValueAfterSignal answerLower answerOriginal restSignals

/-- The `FACT_PATTERNS` table of `_extract_atomic_facts`: each entry is
`(topic_keywords, answer_signals, question_template)` with `{deal_name}`
already substituted. -/
def factPatterns (dealName : String) : List (List String × List String × String) :=
  [ (["minimum", "ticket", "check size", "min ticket", "minimum ticket",
      "minimum check", "min check", "minimum investment"],
     ["minimum ticket", "min ticket", "minimum check", "min check",
      "minimum is", "minimum would be", "minimum:", "ticket is",
      "ticket would be", "ticket:", "check size is", "check size would be",
      "check size:", "minimum investment"],
     "What is the minimum ticket size for " ++ dealName ++ "?"),
    (["payment date", "payment dates", "wire date", "wire dates",
      "payment deadline", "when to pay", "payment schedule"],
     ["payment date", "payment dates", "wire date", "wire by",
      "payment is", "payment would be", "payment:", "dates would be",
      "date would be", "dates are", "date is"],
     "What are the payment dates for " ++ dealName ++ "?"),
    (["structure", "investment structure", "deal structure",
      "how is it structured", "investing structure"],
     ["structure is", "structure would be", "structured as",
      "structured through", "investment structure"],
     "What is the investment structure for " ++ dealName ++ "?"),
    (["fee", "fees", "management fee", "carry", "carried interest"],
     ["fee is", "fees are", "management fee", "carry is",
      "carry would be", "carried interest"],
     "What are the fees and carry for " ++ dealName ++ "?"),
    (["lockup", "lock-up", "lock up", "lock period", "holding period"],
     ["lockup is", "lock-up is", "lock up is", "lockup period",
      "holding period", "locked for", "locked up for"],
     "What is the lock-up period for " ++ dealName ++ "?"),
    (["closing date", "close date", "deadline", "final close",
      "closing deadline"],
     ["closing date", "close date", "deadline is", "closes on",
      "closing on", "final close"],
     "What is the closing date for " ++ dealName ++ "?"),
    (["valuation", "pre-money", "post-money", "company valuation"],
     ["valuation is", "valued at", "valuation:", "pre-money",
      "post-money"],
     "What is the valuation of " ++ dealName ++ "?"),
    (["price per share", "share price", "stock price", "per share",
      "price of share", "share cost", "price now", "current price",
      "cost per share"],
     ["share price is", "share price:", "price per share is",
      "price per share:", "price is", "price would be", "priced at",
      "currently priced", "trading at", "cost is", "price now"],
     "What is the current share price for " ++ dealName ++ "?"),
    (["allocation", "how much is available", "available allocation",
      "total allocation", "remaining allocation"],
     ["allocation is", "allocation:", "available allocation",
      "total allocation", "we have", "remaining is"],
     "What is the available allocation for " ++ dealName ++ "?"),
    (["return", "irr", "multiple", "expected return", "target return",
      "projected return"],
     ["return is", "irr is", "expected return", "target return",
      "projected return", "multiple is", "multiple would be"],
     "What is the expected return or IRR for " ++ dealName ++ "?"),
    (["distribution", "distributions", "distribution schedule",
      "when are distributions", "distribution frequency"],
     ["distribution is", "distributions are", "distributed",
      "distribution schedule", "distributions would be"],
     "What is the distribution schedule for " ++ dealName ++ "?") ]

/-- `DealContextService._extract_atomic_facts(investor_question,
user_answer, deal_id)` with the deal name already resolved. -/
def extractAtomicFacts (investorQuestion userAnswer dealName : String) :
    List (String × String) :=
  let qLower := pyLower investorQuestion
  let aLower := pyLower userAnswer
  (factPatterns dealName).foldl (fun facts pat =>
    if pat.1.any (fun kw => pyIn kw qLower) then
      match extractValueAfterSignal aLower userAnswer pat.2.1 with
      | some value => facts ++ [(pat.2.2, value)]
      | none => facts
    else facts) []

/-- The `KEY_MAPPINGS` table of `_derive_fact_key`. -/
def keyMappings : List (List String × String) :=
  [ (["price per share", "share price", "stock price", "per share",
      "price of share", "current price", "cost per share"], "share_price"),
    (["minimum ticket", "min ticket", "check size", "minimum check",
      "minimum investment", "min check"], "minimum_ticket"),
    (["payment date", "wire date", "payment deadline",
      "payment schedule"], "payment_dates"),
    (["management fee", "carry", "carried interest"], "fees_and_carry"),
    (["lock-up", "lockup", "lock up", "holding period"], "lockup_period"),
    (["closing date", "close date", "final close"], "closing_date"),
    (["valuation", "company value", "pre-money", "post-money"], "valuation"),
    (["irr", "internal rate of return"], "irr"),
    (["allocation", "available allocation"], "allocation"),
    (["distribution", "distribution schedule"], "distributions"),
    (["return", "expected return", "target return"], "expected_return"),
    (["fee", "fees"], "fees"),
    (["structure", "investment structure"], "deal_structure") ]

/-- Stopwords of the generic fallback of `_derive_fact_key`. -/
def deriveKeyStopwords : List String :=
  ["what", "whats", "is", "the", "are", "how", "much", "many",
   "long", "do", "you", "have", "can", "tell", "me", "about",
   "for", "of", "a", "an", "now", "current", "currently", "any"]

/-- `DealContextService._derive_fact_key(question)`. -/
def deriveFactKey (question : String) : Option String :=
  let q := pyStrip (pyLower question)
  match keyMappings.find? (fun m => m.1.any (fun kw => pyIn kw q)) with
  | some m => some m.2
  | none =>
    let words := pySplitWS (pySubNonWordToSpace q)
    let meaningful := words.filter (fun w =>
      ¬ deriveKeyStopwords.contains w ∧ pyLen w > 2)
    if meaningful ≠ [] then some (pyJoin "_" (meaningful.take 3)) else none

/-- `DealContextService.store_dynamic_kb(deal_id, question, answer,
created_by)`: inserts one approved Q&A row embedded over
`question + " " + answer` (the `created_by` argument is not a column of the
model and is not persisted). -/
def storeDynamicKb (embed : String → List ℚ) (dealId : Nat)
    (question answer : String) (db : List DynamicFact) : List DynamicFact :=
  db ++ [{ deal_id := dealId, question := some question, answer := some answer,
           fact_key := none, fact_value := none,
           embedding := some (embed (question ++ " " ++ answer)),
           approval_status := "approved" }]

/-- `DealContextService.store_dynamic_kb_with_decomposition(deal_id,
investor_question, user_answer, created_by)`. -/
def storeDynamicKbWithDecomposition (embed : String → List ℚ)
    (deals : List Deal) (dealId : Nat) (investorQuestion userAnswer : String)
    (db : List DynamicFact) : List DynamicFact :=
  -- 1. full Q&A record
  let db1 := storeDynamicKb embed dealId investorQuestion userAnswer db
  -- 2. atomic facts
  let dealName := (getDealName deals dealId).getD "the deal"
  let atomic := extractAtomicFacts investorQuestion userAnswer dealName
  if atomic ≠ [] then
    atomic.foldl (fun acc fq => storeDynamicKb embed dealId fq.1 fq.2 acc) db1
  else
    -- 3. fallback fact_key / fact_value record
    match deriveFactKey investorQuestion with
    | some factKey =>
      db1 ++ [{ deal_id := dealId, question := some investorQuestion,
                answer := some userAnswer, fact_key := some factKey,
                fact_value := some (pyStrip userAnswer),
                embedding := some (embed (investorQuestion ++ " " ++ userAnswer)),
                approval_status := "approved" }]
    | none => db1

/-! ## QueryService — classifiers and helpers

From src/bot/services/query_service.py.
-/

/-- `QueryService.GREETING_PATTERNS`. -/
def GREETING_PATTERNS : List String :=
  ["hello", "hi", "hey", "hiya", "howdy",
   "good morning", "good afternoon", "good evening", "good day",
   "how are you", "how r u", "what's up", "whats up", "sup",
   "thanks", "thank you", "thank you!", "thanks!", "cheers",
   "bye", "goodbye", "see you", "talk later",
   "ok", "okay", "alright", "got it", "noted",
   "yes", "no", "sure", "great", "perfect", "sounds good"]

/-- `BUSINESS_KEYWORDS` of `QueryService._is_greeting` (tested against
single tokens, so the multi-word entries can never match — kept faithful). -/
def BUSINESS_KEYWORDS : List String :=
  ["minimum", "ticket", "investment", "deal", "structure",
   "payment", "date", "fee", "fees", "carry", "valuation",
   "return", "returns", "fund", "close", "closing", "allocation",
   "share", "shares", "price", "wire", "document", "documents",
   "sign", "subscription", "information", "details", "lockup",
   "lock", "period", "spv", "equity", "preferred", "common",
   "distribution", "ebitda", "arr", "revenue", "growth",
   "what", "when", "where", "which", "who", "why",
   "can you", "could you", "please", "tell me", "explain",
   "do you have", "is there", "are there", "how much", "how many",
   "how long", "how do"]

/-- `SOCIAL_FILLER` of `QueryService._is_greeting`. -/
def SOCIAL_FILLER : List String :=
  ["hello", "hi", "hey", "hiya", "howdy", "good", "morning",
   "afternoon", "evening", "day", "how", "are", "you", "doing",
   "i", "am", "we", "bot", "there", "mate", "sir", "team",
   "thanks", "thank", "cheers", "bye", "goodbye", "ok", "okay",
   "alright", "sure", "great", "perfect", "noted", "got", "it",
   "very", "well", "fine", "nice", "sup", "whats", "up"]

/-- `GREETING_STARTERS` of `QueryService._is_greeting`. -/
def GREETING_STARTERS : List String :=
  ["hello", "hi", "hey", "hiya", "howdy", "good",
   "thanks", "thank", "bye", "goodbye", "ok", "okay", "alright"]

/-- `QueryService._is_greeting(question)`. -/
def isGreeting (question : String) : Bool :=
  -- text = re.sub(r"[^\w\s]", " ", question.strip().lower()).strip()
  -- text = re.sub(r"\s+", " ", text)   (text already stripped)
  let text := pyJoin " "
    (pySplitWS (pyStrip (pySubNonWordToSpace (pyLower (pyStrip question)))))
  if GREETING_PATTERNS.contains text then true
  else
    let words := pySplitWS text
    match words with
    | [] => false
    | w0 :: _ =>
      if GREETING_STARTERS.contains w0 then
        let remaining := words.filter (fun w => ¬ SOCIAL_FILLER.contains w)
        if remaining = [] then true
        else if remaining.any (fun w => BUSINESS_KEYWORDS.contains w) then false
        else if words.length ≤ 8 then true
        else false
      else false

/-- `QUESTION_STARTERS` of `QueryService._is_new_question`. -/
def QUESTION_STARTERS : List String :=
  ["what", "when", "where", "which", "who", "why", "how",
   "can you", "could you", "do you", "is there", "are there",
   "tell me", "please tell", "please provide", "please share",
   "can we", "would you"]

/-- `QueryService._is_new_question(question)`. -/
def isNewQuestion (question : String) : Bool :=
  let q := pyStrip (pyLower question)
  QUESTION_STARTERS.any (fun s => pyStartsWith q s)

/-- `QueryService.MISSING_INFO_SIGNALS`. -/
def MISSING_INFO_SIGNALS : List String :=
  ["we don't have", "we do not have", "not in our knowledge base",
   "not found in our", "could you provide", "could you share",
   "please provide", "please share", "i need the following",
   "missing from our knowledge base", "not present in our documents",
   "i don't have", "i do not have"]

/-- `QueryService._has_missing_info_signal(answer)`. -/
def hasMissingInfoSignal (answer : String) : Bool :=
  MISSING_INFO_SIGNALS.any (fun s => pyIn s (pyLower answer))

/-- `QueryService._get_pending_question` walks the history newest-first and
inspects only the newest assistant message. -/
def getPendingQuestionGo : List Msg → Option String
  | [] => none
  | m :: rest =>
    if m.role = "assistant" then
      if mget m.metadata "type" = some "needs_info" then
        match mget m.metadata "investor_question" with
        | some iq => if iq ≠ "" then some iq else none
        | none => none
      else none
    else getPendingQuestionGo rest

/-- `QueryService._get_pending_question(history)` (the returned dict's
`investor_question` value). -/
def getPendingQuestion (history : List Msg) : Option String :=
  getPendingQuestionGo history.reverse

/-- `QueryService._get_deal_from_history(history)`: newest message with a
non-`None` `deal_id`. -/
def dealFromHistoryGo : List Msg → Option Nat
  | [] => none
  | m :: rest =>
    match m.deal_id with
    | some d => some d
    | none => dealFromHistoryGo rest

def dealFromHistory (history : List Msg) : Option Nat :=
  dealFromHistoryGo history.reverse

/-- Step 4 of `answer_question`: explicit `deal_id` argument, then substring
match on the question, then most recent non-null `deal_id` in history. -/
def resolveActiveDeal (dealArg : Option Nat) (question : String)
    (deals : List Deal) (history : List Msg) : Option Nat :=
  match dealArg with
  | some d => some d
  | none =>
    match detectDealInText question deals with
    | some d => some d
    | none => dealFromHistory history

/-- `QueryService._resolve_investor_question(history, current_question)`. -/
def resolveInvestorQuestion (history : List Msg) (currentQuestion : String) :
    String :=
  if currentQuestion ≠ "" ∧ pyLen (pyStrip currentQuestion) > 20 then
    pyStrip currentQuestion
  else
    let fromClarification :=
      match history.reverse.find? (fun m => m.role = "assistant") with
      | some m =>
        if mget m.metadata "type" = some "clarification" then
          match mget m.metadata "original_question" with
          | some o => if o ≠ "" then some o else none
          | none => none
        else none
      | none => none
    match fromClarification with
    | some o => o
    | none =>
      match history.find? (fun m =>
          m.role = "user" ∧ pyLen (pyStrip m.content) > 20) with
      | some m => pyStrip m.content
      | none => currentQuestion

/-! ## Static KB chunks and ContextBuilder

`SearchService.search_similar_chunks` returns 7-tuples
`(chunk_text, doc_name, similarity, chunk_id, chunk_index, page_number,
deal_id)`; the search itself is a DB+embedding round-trip and enters the
pipeline model as an oracle value. -/

structure Chunk where
  chunk_text : String
  doc_name : String
  similarity : ℚ
  chunk_id : Nat
  chunk_index : Nat
  page_number : Option Nat
  deal_id : Option Nat
  deriving DecidableEq, Repr

/-- Python truthiness of `c[6]` in the step-10 list comprehension
(`None` and `0` falsy). -/
def chunkTruthyDeal (c : Chunk) : Option Nat :=
  match c.deal_id with
  | some d => if d ≠ 0 then some d else none
  | none => none

/-- Step 10 of `answer_question` (query_service.py lines 246-250): infer the
active deal from the search results when still unknown.  The tuples are
always 7-long, so the `len(c) > 6` guard in the comprehension is vacuous. -/
def inferDealFromChunks (activeDeal : Option Nat) (chunks : List Chunk) :
    Option Nat :=
  if chunks ≠ [] ∧ activeDeal = none then
    match (chunks.filterMap chunkTruthyDeal).head? with
    | some d => some d
    | none => activeDeal
  else activeDeal

/-- `ContextBuilder.calculate_confidence(chunks)`. -/
def calcConfidence (chunks : List Chunk) : String :=
  if chunks = [] then "low"
  else
    let avg := (chunks.map (·.similarity)).sum / (chunks.length : ℚ)
    if avg ≥ 85/100 then "high"
    else if avg ≥ 70/100 then "medium"
    else "low"

/-! ## ClarificationService

From src/bot/services/clarification_service.py. -/

def DEAL_SPECIFIC_KEYWORDS : List String :=
  ["structure", "minimum", "ticket", "fee", "fees", "carry",
   "management fee", "payment", "close", "closing", "timeline",
   "valuation", "revenue", "ipo", "lock", "lock-up", "lock up",
   "return", "returns", "share", "equity", "spv", "allocation",
   "upfront", "profit", "capital", "preferred", "common", "secondary",
   "distribution", "price", "cost", "how much", "how long",
   "invest", "investing", "investment", "deal", "terms",
   "when", "deadline", "date", "dates", "schedule",
   "documents", "sign", "dropbox", "wiring", "wire",
   "ebitda", "arr", "growth", "customers"]

def GENERAL_KEYWORDS : List String :=
  ["hello", "hi", "hey", "how are you",
   "what can you", "what do you", "who are you",
   "what is odp", "open doors", "what deals", "which deals",
   "what opportunities", "what investment", "what do you offer",
   "tell me about", "available deals", "current deals"]

/-- `ClarificationService.needs_clarification(question, chunks_found,
confidence, has_deal_context)` (the middle two arguments are accepted but
never read by the source). -/
def needsClarification (question : String) (_chunksFound : Nat)
    (_confidence : String) (hasDealContext : Bool) : Bool :=
  if hasDealContext then false
  else
    let ql := pyStrip (pyLower question)
    if GENERAL_KEYWORDS.any (fun p => pyIn p ql) then false
    else if DEAL_SPECIFIC_KEYWORDS.any (fun k => pyIn k ql) then true
    else true

/-- `ClarificationService.generate_clarifying_question(question,
available_documents, available_deals)`: the deal-keyword fast path is
LLM-free; genuinely vague questions go to the LLM oracle.  The
`available_documents` argument only decorates the LLM prompt. -/
def generateClarifyingQuestion (llm : Except Unit String) (question : String)
    (availableDeals : List String) : Except Unit String :=
  let dealPrompt :=
    if availableDeals ≠ [] then
      "Are you asking about " ++ pyJoin " or " availableDeals ++ "?"
    else "Could you let me know which deal you're asking about?"
  let ql := pyLower question
  if DEAL_SPECIFIC_KEYWORDS.any (fun k => pyIn k ql) then
    .ok ("Happy to help! " ++ dealPrompt)
  else
    match llm with
    | .error e => .error e
    | .ok resp => .ok (pyStrip resp)

/-! ## QueryService.answer_question — the pipeline orchestrator

From src/bot/services/query_service.py lines 106-372 and 472-549.  The
session/history/deal loads (steps 1-3) are the `history` and `deals`
arguments; every LLM completion is an `Except Unit String` oracle (an
`error` models `ChatService.generate_response` raising, which the
orchestrator's outer `except` turns into `QUERY_FAILED`).  The dynamic and
static KB searches of steps 9-10 (and their re-runs in the subflow) feed
only the LLM prompt, which is an oracle here, so their formatted output
does not appear in the modelled observables; the static search *result*
(`chunks`) does, and enters as `Oracle.chunks`.  The observable state is
the response type/body, the persisted conversation messages, and the
dynamic-facts table.
-/

structure Oracle where
  embed : String → List ℚ
  dist : List ℚ → List ℚ → ℚ
  enhanceLLM : Except Unit String
  chunks : List Chunk
  greetingLLM : Except Unit String
  clarifyLLM : Except Unit String
  answerLLM : Except Unit String
  infoRequestLLM : Except Unit String
  draftLLM : Except Unit String

structure BotResponse where
  responseType : String
  body : String
  history : List Msg
  facts : List DynamicFact
  deriving DecidableEq, Repr

/-- `QueryService._handle_user_supplied_answer` (subflow of step 7). -/
def handleUserSuppliedAnswer (o : Oracle) (userAnswer pendingQuestion : String)
    (activeDealId : Nat) (hist1 : List Msg) (deals : List Deal)
    (facts : List DynamicFact) : Except String BotResponse :=
  let facts1 := storeDynamicKbWithDecomposition o.embed deals activeDealId
    pendingQuestion userAnswer facts
  -- both KB tiers are re-searched for the draft prompt (LLM oracle input)
  match o.draftLLM with
  | .error _ => .error "QUERY_FAILED"
  | .ok draft =>
    .ok { responseType := "draft_email", body := draft,
          history := hist1 ++
            [{ role := "assistant", content := draft,
               deal_id := some activeDealId,
               metadata := [("type", "draft_email"),
                            ("trigger", "user_supplied_answer")] }],
          facts := facts1 }

/-- `QueryService.answer_question(question, user_id, deal_id, session_id,
top_k, similarity_threshold)` over explicit session state. -/
def answerQuestion (o : Oracle) (question : String) (dealArg : Option Nat)
    (history : List Msg) (deals : List Deal) (facts : List DynamicFact)
    (_topK : Nat) (thr : ℚ) : Except String BotResponse :=
  -- step 4
  let activeDeal := resolveActiveDeal dealArg question deals history
  -- step 5
  let hist1 := history ++
    [{ role := "user", content := question, deal_id := activeDeal,
       metadata := [] }]
  -- step 6: greeting short-circuit (before the pending needs_info check)
  if isGreeting question then
    match o.greetingLLM with
    | .error _ => .error "QUERY_FAILED"
    | .ok reply0 =>
      let reply := pyStrip reply0
      .ok { responseType := "answer", body := reply,
            history := hist1 ++
              [{ role := "assistant", content := reply,
                 deal_id := activeDeal,
                 metadata := [("type", "greeting")] }],
            facts := facts }
  else
  -- step 7: pending needs_info check (deal id tested with Python truthiness)
  if (getPendingQuestion history).isSome && dealTruthy activeDeal &&
      !isNewQuestion question then
    handleUserSuppliedAnswer o question ((getPendingQuestion history).getD "")
      (activeDeal.getD 0) hist1 deals facts
  else
  -- step 8: query enhancement (no try/except in the source: errors escape)
  match enhanceQuery o.enhanceLLM question history with
  | .error _ => .error "QUERY_FAILED"
  | .ok enhancedQuestion =>
    -- step 9: dynamic KB search with the enhanced question (prompt input)
    let _dynamicContext :=
      searchDynamicKb o.dist o.embed enhancedQuestion activeDeal 5 thr facts
    -- step 10: static KB search result and deal inference
    let chunks := o.chunks
    let activeDeal2 := inferDealFromChunks activeDeal chunks
    let confidence := calcConfidence chunks
    -- step 11: clarification (`has_deal_context=active_deal_id is not None`)
    if needsClarification question chunks.length confidence activeDeal2.isSome
    then
      match generateClarifyingQuestion o.clarifyLLM question
          (deals.map (·.deal_name)) with
      | .error _ => .error "QUERY_FAILED"
      | .ok clarifyingQ =>
        .ok { responseType := "needs_clarification", body := clarifyingQ,
              history := hist1 ++
                [{ role := "assistant", content := clarifyingQ,
                   deal_id := none,
                   metadata := [("type", "clarification"),
                                ("original_question", question)] }],
              facts := facts }
    else
    -- steps 12-15: merge contexts, build prompt, main LLM answer call
    match o.answerLLM with
    | .error _ => .error "QUERY_FAILED"
    | .ok answer =>
      -- step 16: missing-info detection
      if hasMissingInfoSignal answer then
        let investorQ := resolveInvestorQuestion history question
        match o.infoRequestLLM with
        | .error _ => .error "QUERY_FAILED"
        | .ok infoRequest =>
          .ok { responseType := "needs_info", body := answer,
                history := hist1 ++
                  [{ role := "assistant",
                     content := answer ++ "\n\n---\n" ++ infoRequest,
                     deal_id := activeDeal2,
                     metadata := [("type", "needs_info"),
                                  ("investor_question", investorQ),
                                  ("confidence", confidence)] }],
                facts := facts }
      else
        -- step 17: full answer
        .ok { responseType := "answer", body := answer,
              history := hist1 ++
                [{ role := "assistant", content := answer,
                   deal_id := activeDeal2,
                   metadata := [("type", "answer"),
                                ("confidence", confidence)] }],
              facts := facts }

/-- Decidable equality for `Except`, used to evaluate pipeline runs on
concrete inputs. -/
instance {ε α : Type} [DecidableEq ε] [DecidableEq α] :
    DecidableEq (Except ε α) := fun a b =>
  match a, b with
  | .error e, .error f =>
    decidable_of_iff (e = f) ⟨fun h => by rw [h], fun h => by injection h⟩
  | .ok x, .ok y =>
    decidable_of_iff (x = y) ⟨fun h => by rw [h], fun h => by injection h⟩
  | .error _, .ok _ => .isFalse (fun h => by injection h)
  | .ok _, .error _ => .isFalse (fun h => by injection h)

/-! ## Concrete fixtures

Concrete inputs used by the spec's scenarios (§8) and by the witness and
counterexample theorems below. -/

/-- A fully successful oracle with empty KBs and fixed LLM outputs. -/
def oracleA : Oracle :=
  { embed := fun _ => [], dist := fun _ _ => 0,
    enhanceLLM := .ok "Enhanced question",
    chunks := [],
    greetingLLM := .ok "Hi there! Ready to help.",
    clarifyLLM := .ok "Which deal do you mean?",
    answerLLM := .ok "The minimum ticket is $25K.",
    infoRequestLLM := .ok "1. What is the lockup period?",
    draftLLM := .ok "Draft body" }

/-- The multi-part investor question of spec scenario 3. -/
def investorQ3 : String :=
  "Do you have details on structure, payment dates, and minimum ticket?"

/-- The team member's multi-part reply of spec scenario 3. -/
def scenario3Answer : String :=
  "Structure would be SPV. Payment dates would be Next Tuesday and Minimum Ticket would be $25K."

/-- A session whose newest assistant message is a pending `needs_info`. -/
def needsInfoHistory : List Msg :=
  [⟨"user", investorQ3, some 1, []⟩,
   ⟨"assistant", "partial\n\n---\nplease provide", some 1,
    [("type", "needs_info"), ("investor_question", investorQ3)]⟩]

def dealsSpaceX : List Deal := [⟨1, "SpaceX", "SPX"⟩]

def dealsTwo : List Deal := [⟨1, "SpaceX", "SPX"⟩, ⟨2, "Anthropic", "ANT"⟩]

/-- A single active deal named `D`, as in spec scenario 3. -/
def dealsD : List Deal := [⟨1, "D", "DCODE"⟩]

/-- `needsInfoHistory` after the greeting request of spec scenario 4 has
been processed (the user's "Hello" plus the greeting reply). -/
def historyAfterGreeting : List Msg :=
  needsInfoHistory ++
    [⟨"user", "Hello", some 1, []⟩,
     ⟨"assistant", "Hi there! Ready to help.", some 1, [("type", "greeting")]⟩]

/-- A two-message history (enough to open the rewriter's gate). -/
def msgsTwo : List Msg :=
  [⟨"user", "What is SpaceX valuation?", none, []⟩,
   ⟨"assistant", "It is $350B.", none, []⟩]

/-- Two chunks carrying different non-null deal ids. -/
def chunkDeal1 : Chunk := ⟨"text one", "a.pdf", 9/10, 11, 0, some 1, some 1⟩

def chunkDeal2 : Chunk := ⟨"text two", "b.pdf", 8/10, 12, 0, some 1, some 2⟩

/-- A pre-existing pending key-value row for the upsert scenario. -/
def pendingShareRow : DynamicFact :=
  { deal_id := 1, question := none, answer := none,
    fact_key := some "share_price", fact_value := some "$100",
    embedding := none, approval_status := "pending" }

/-- `pendingShareRow` after an upsert with value `$380`. -/
def updatedShareRow : DynamicFact :=
  { deal_id := 1, question := none, answer := none,
    fact_key := some "share_price", fact_value := some "$380",
    embedding := none, approval_status := "approved" }

/-- A concrete formatted dynamic-KB block (spec scenario 2 shape), with the
trailing newline `search_dynamic_kb` always emits: its parts list ends with
an empty part, so the `"\n".join` ends in `"\n"`. -/
def dynBlockW : String :=
  teamFactsHeader ++ "\nQ: What is the minimum ticket for D?\nA: $25,000\n"

/-- A concrete formatted static-KB block, with the trailing newline
`build_context` always emits: each chunk is rendered as
`f"Document {i}:\n{source_info}\n{chunk_text}\n"`. -/
def docBlockW : String :=
  "Document 1:\n[Source: deck.pdf, Page 3, Relevance: 80.00%]\nMinimum ticket: $50,000\n"

/-- An approved key-value fact of another deal (deal 2), for the unscoped
search witness. -/
def factRowW : DynamicFact :=
  { deal_id := 2, question := none, answer := none,
    fact_key := some "minimum_ticket", fact_value := some "$25K",
    embedding := none, approval_status := "approved" }

/-- An OpenAI-style message list with leading and mid-conversation system
messages. -/
def chatMsgsW : List ChatMsg :=
  [⟨"system", "S1"⟩, ⟨"system", "S2"⟩, ⟨"user", "U1"⟩, ⟨"system", "S3"⟩,
   ⟨"assistant", "A1"⟩, ⟨"user", "U2"⟩]

/-! ## Generic list/string lemmas -/

theorem filter_filter_of_imp {α : Type} (p q : α → Bool)
    (h : ∀ a, p a = true → q a = true) (l : List α) :
    (l.filter q).filter p = l.filter p := by
  induction l with
  | nil => rfl
  | cons a l ih =>
    by_cases hq : q a = true
    · by_cases hp : p a = true <;> simp [List.filter_cons, hq, hp, ih]
    · have hp : p a = false := by
        cases hpa : p a with
        | false => rfl
        | true => exact absurd (h a hpa) hq
      simp [List.filter_cons, hq, hp, ih]

theorem string_eq_empty_iff (s : String) : s = "" ↔ s.data = [] := by
  constructor
  · intro h
    rw [h]
  · intro h
    cases s with
    | mk data =>
      simp only at h
      rw [h]

/-- A list fixed by `dropWhile` and non-empty starts with a non-matching
character, so appending on the right leaves `dropWhile` a no-op. -/
theorem dropWhile_pyWS_append (l₁ l₂ : List Char)
    (h : l₁.dropWhile pyWS = l₁) (hne : l₁ ≠ []) :
    (l₁ ++ l₂).dropWhile pyWS = l₁ ++ l₂ := by
  cases l₁ with
  | nil => exact absurd rfl hne
  | cons c t =>
    have hc : pyWS c = false := by
      cases hw : pyWS c with
      | false => rfl
      | true =>
        rw [List.dropWhile_cons, hw] at h
        simp only [if_true] at h
        have hlen := congrArg List.length h
        have hle := (List.dropWhile_sublist (l := t) pyWS).length_le
        simp only [List.length_cons] at hlen
        omega
    simp [List.dropWhile_cons, hc]

/-- Appending on the right of a left-strip-fixed non-empty string leaves
the left strip a no-op. -/
theorem pyLstrip_fix_append (s t : String) (h : pyLstrip s = s)
    (hne : s ≠ "") : pyLstrip (s ++ t) = s ++ t := by
  have hd : s.data.dropWhile pyWS = s.data := congrArg String.data h
  have hdne : s.data ≠ [] := fun hc => hne ((string_eq_empty_iff s).2 hc)
  apply String.ext
  show pyLstripL (s ++ t).data = (s ++ t).data
  rw [String.data_append]
  exact dropWhile_pyWS_append _ _ hd hdne

/-- When `dropWhile` leaves something of `l₁`, it stops inside `l₁`, so an
appended tail passes through untouched. -/
theorem dropWhile_append_of_ne (l₁ l₂ : List Char)
    (h : l₁.dropWhile pyWS ≠ []) :
    (l₁ ++ l₂).dropWhile pyWS = l₁.dropWhile pyWS ++ l₂ := by
  induction l₁ with
  | nil => exact absurd rfl h
  | cons c t ih =>
    cases hc : pyWS c with
    | true =>
      rw [List.dropWhile_cons, hc] at h
      simp only [if_true] at h
      simp only [List.cons_append, List.dropWhile_cons, hc, if_true, ih h]
    | false =>
      simp [List.dropWhile_cons, hc]

/-- Right-stripping a concatenation whose right part keeps some content
right-strips only the right part. -/
theorem pyRstrip_append_of_ne (s t : String) (h : pyRstrip t ≠ "") :
    pyRstrip (s ++ t) = s ++ pyRstrip t := by
  have hdne : t.data.reverse.dropWhile pyWS ≠ [] := by
    intro hc
    apply h
    apply (string_eq_empty_iff _).2
    show (t.data.reverse.dropWhile pyWS).reverse = []
    rw [hc]
    rfl
  apply String.ext
  show pyRstripL (s ++ t).data = (s ++ pyRstrip t).data
  rw [String.data_append, String.data_append]
  show ((s.data ++ t.data).reverse.dropWhile pyWS).reverse =
    s.data ++ (t.data.reverse.dropWhile pyWS).reverse
  rw [List.reverse_append, dropWhile_append_of_ne _ _ hdne,
    List.reverse_append, List.reverse_reverse]

/-- Stripping the merged KB context only removes the static block's
trailing whitespace when the dynamic block starts with a non-whitespace
character and the static block has non-whitespace content. -/
theorem pyStrip_merged (dyn doc : String) (h1 : dyn ≠ "")
    (h3 : pyLstrip dyn = dyn) (h4 : pyRstrip doc ≠ "") :
    pyStrip (dyn ++ "\n\n" ++ doc) = dyn ++ "\n\n" ++ pyRstrip doc := by
  have comp : ∀ s, pyStrip s = pyRstrip (pyLstrip s) := fun _ => rfl
  rw [comp, String.append_assoc, pyLstrip_fix_append dyn ("\n\n" ++ doc) h3 h1,
    ← String.append_assoc, pyRstrip_append_of_ne (dyn ++ "\n\n") doc h4]

theorem str_append_ne_empty_left (s t : String) (h : s ≠ "") : s ++ t ≠ "" := by
  intro hc
  have hdata : (s ++ t).data = [] := (string_eq_empty_iff _).1 hc
  rw [String.data_append] at hdata
  exact h ((string_eq_empty_iff s).2 (List.append_eq_nil.1 hdata).1)

/-- Any member of a joined list occurs as a contiguous block of the join. -/
theorem pyJoin_mem_decomp (sep : String) (l : List String) (x : String)
    (hx : x ∈ l) : ∃ pre post, pyJoin sep l = pre ++ x ++ post := by
  induction l with
  | nil => cases hx
  | cons a t ih =>
    cases hx with
    | head =>
      cases t with
      | nil => exact ⟨"", "", by simp [pyJoin, String.empty_append, String.append_empty]⟩
      | cons b t' =>
        exact ⟨"", sep ++ pyJoin sep (b :: t'),
          by simp [pyJoin, String.empty_append, String.append_assoc]⟩
    | tail _ hmem =>
      obtain ⟨pre, post, hdec⟩ := ih hmem
      refine ⟨a ++ sep ++ pre, post, ?_⟩
      cases t with
      | nil => cases hmem
      | cons b t' =>
        simp only [pyJoin, hdec, String.append_assoc]

/-! ## Claim C7 — approval visibility invariant -/

/-- C7: for every call to the dynamic KB search, rows whose
`approval_status` differs from `'approved'` contribute nothing to the
returned block — the search over any table equals the search over the
table restricted to approved rows, so neither the Q&A similarity pass nor
the key-value pass can surface an unapproved fact. -/
theorem c7_approval_visibility (dist : List ℚ → List ℚ → ℚ)
    (embed : String → List ℚ) (question : String) (dealId : Option Nat)
    (topK : Nat) (thr : ℚ) (db : List DynamicFact) :
    searchDynamicKb dist embed question dealId topK thr db =
      searchDynamicKb dist embed question dealId topK thr
        (db.filter (fun f => f.approval_status = "approved")) := by
  have h1 : ∀ f, qaRowPred dist (embed question) dealId thr f = true →
      decide (f.approval_status = "approved") = true := by
    intro f hf
    simp only [qaRowPred, Bool.and_eq_true, decide_eq_true_eq] at hf
    simp [hf.1.1.1.2]
  have h2 : ∀ f, kvRowPred dealId f = true →
      decide (f.approval_status = "approved") = true := by
    intro f hf
    simp only [kvRowPred, Bool.and_eq_true, decide_eq_true_eq] at hf
    simp [hf.1.1.1]
  simp only [searchDynamicKb]
  rw [filter_filter_of_imp _ _ h1, filter_filter_of_imp _ _ h2]

/-! ## Claim C10 — the key-value pass ignores similarity, top_k and deal scope -/

/-- C10: the key-value pass of the dynamic KB search appends every approved
row with non-null `fact_key` and `fact_value` to the returned block — for
every similarity oracle, question, `top_k` and threshold — and when
`deal_id` is `None` it draws those rows from all deals: each such row's
formatted `Title Cased Key: value` line occurs verbatim in the output. -/
theorem c10_kv_pass_unscoped (dist : List ℚ → List ℚ → ℚ)
    (embed : String → List ℚ) (question : String) (topK : Nat) (thr : ℚ)
    (db : List DynamicFact) (f : DynamicFact) (k v : String)
    (hf : f ∈ db) (ha : f.approval_status = "approved")
    (hk : f.fact_key = some k) (hv : f.fact_value = some v) :
    ∃ pre post,
      searchDynamicKb dist embed question none topK thr db =
        pre ++ (pyTitle (pyReplaceChar k '_' ' ') ++ ": " ++ v) ++ post := by
  have hpred : kvRowPred none f = true := by
    simp [kvRowPred, dealTruthy, ha, hk, hv]
  have hmemrow : f ∈ db.filter (kvRowPred none) := List.mem_filter.2 ⟨hf, hpred⟩
  have hline : kvLine f = pyTitle (pyReplaceChar k '_' ' ') ++ ": " ++ v := by
    simp [kvLine, hk, hv]
  have hne : db.filter (kvRowPred none) ≠ [] := by
    intro hcon
    rw [hcon] at hmemrow
    cases hmemrow
  simp only [searchDynamicKb]
  rw [if_pos hne]
  have hmem : kvLine f ∈
      (if (sortByKey (fun g => dist (g.embedding.getD []) (embed question))
            (db.filter (qaRowPred dist (embed question) none thr))).take topK ≠ [] then
        teamFactsHeader ::
          ((sortByKey (fun g => dist (g.embedding.getD []) (embed question))
            (db.filter (qaRowPred dist (embed question) none thr))).take topK).flatMap
            (fun g => ["Q: " ++ g.question.getD "", "A: " ++ optText g.answer, ""])
      else []) ++
      ((if (if (sortByKey (fun g => dist (g.embedding.getD []) (embed question))
            (db.filter (qaRowPred dist (embed question) none thr))).take topK ≠ [] then
          teamFactsHeader ::
            ((sortByKey (fun g => dist (g.embedding.getD []) (embed question))
              (db.filter (qaRowPred dist (embed question) none thr))).take topK).flatMap
              (fun g => ["Q: " ++ g.question.getD "", "A: " ++ optText g.answer, ""])
        else []) = [] then [teamFactsHeader] else []) ++
        (db.filter (kvRowPred none)).map kvLine ++ [""]) := by
    refine List.mem_append.2 (Or.inr ?_)
    refine List.mem_append.2 (Or.inl ?_)
    exact List.mem_append.2 (Or.inr (List.mem_map_of_mem _ hmemrow))
  obtain ⟨pre, post, hdec⟩ := pyJoin_mem_decomp "\n" _ (kvLine f) hmem
  rw [hline] at hdec
  exact ⟨pre, post, hdec⟩

/-- C10 witness: the theorem applied to a one-row table whose approved
key-value fact belongs to deal 2 while the search is deal-unscoped. -/
theorem c10_kv_pass_unscoped_witness :
    (factRowW ∈ [factRowW] ∧ factRowW.approval_status = "approved" ∧
     factRowW.fact_key = some "minimum_ticket" ∧
     factRowW.fact_value = some "$25K") ∧
    ∃ pre post,
      searchDynamicKb (fun _ _ => 0) (fun _ => []) "What is the minimum check size?"
          none 5 (1/2) [factRowW] =
        pre ++ (pyTitle (pyReplaceChar "minimum_ticket" '_' ' ') ++ ": " ++ "$25K") ++ post :=
  ⟨⟨by decide, by decide, by decide, by decide⟩,
   c10_kv_pass_unscoped (fun _ _ => 0) (fun _ => [])
     "What is the minimum check size?" 5 (1/2) [factRowW] factRowW
     "minimum_ticket" "$25K" (by decide) (by decide) (by decide) (by decide)⟩

/-! ## Claim C8 — upsert by (deal_id, fact_key) -/

/-- C8: the claimed idempotent upsert fails on the code: on an empty table
`_upsert_fact(1, "share_price", v1)` then `(1, "share_price", v2)` leaves
zero rows, not one — the insert branch constructs `DealDynamicFact` with
keyword arguments (`as_of_date`, `source_note`, `approved_by`,
`approved_at`, `created_by`) that are not columns of the model, so the
constructor raises `TypeError`, the `except` returns `None`, and nothing is
inserted.  When a `(deal_id, fact_key)` row already exists, the update path
does leave exactly one row with the last value and `approved` status. -/
theorem c8_upsert_insert_fails :
    (upsertFact 1 "share_price" "$380"
      (upsertFact 1 "share_price" "$378" []).2).2 = [] ∧
    (upsertFact 1 "share_price" "$378" []).1 = none ∧
    (upsertFact 1 "share_price" "$380"
      (upsertFact 1 "share_price" "$378" [pendingShareRow]).2).2 =
      [updatedShareRow] := by decide

/-! ## Claim C5 — deal adoption from search results -/

/-- C5 counterexample: with two chunks carrying *different* non-null deal
ids (1 and 2), step 10 still adopts deal 1 — adoption does not require the
chunks' deal ids to be consistent, refuting the claim's "only under this
consistency condition". -/
theorem c5_counterexample :
    inferDealFromChunks none [chunkDeal1, chunkDeal2] = some 1 ∧
    chunkDeal1.deal_id = some 1 ∧ chunkDeal2.deal_id = some 2 ∧
    ¬ (∀ c ∈ [chunkDeal1, chunkDeal2], c.deal_id = some 1) := by decide

/-- C5 amended: if the active deal is still unset after the static search,
the pipeline adopts the *first* truthy (non-null, non-zero) `deal_id` among
the returned chunks, with no consistency requirement (`none` when no chunk
carries one); an already-set active deal is never overwritten. -/
theorem c5_amended :
    (∀ cs : List Chunk,
      inferDealFromChunks none cs = (cs.filterMap chunkTruthyDeal).head?) ∧
    (∀ (x : Nat) (cs : List Chunk), inferDealFromChunks (some x) cs = some x) := by
  constructor
  · intro cs
    cases cs with
    | nil => simp [inferDealFromChunks]
    | cons c cs' =>
      cases h : ((c :: cs').filterMap chunkTruthyDeal).head? <;>
        simp [inferDealFromChunks, h]
  · intro x cs
    simp [inferDealFromChunks]

/-! ## Claim C9 — provider message splitting -/

/-- Once the conversation accumulator is non-empty, the splitter loop never
touches `system_parts` again and behaves like `midConv`. -/
theorem splitGo_conv_phase :
    ∀ (msgs : List ChatMsg) (sysParts pending : List String)
      (conv : List ChatMsg), msgs.all validRole = true → conv ≠ [] →
      splitGo sysParts conv pending msgs = (sysParts, conv ++ midConv pending msgs) := by
  intro msgs
  induction msgs with
  | nil =>
    intro sysParts pending conv _ _
    simp [splitGo, midConv]
  | cons m rest ih =>
    intro sysParts pending conv hv hconv
    have hv' : rest.all validRole = true := by
      simp only [List.all_cons, Bool.and_eq_true] at hv
      exact hv.2
    have hm : validRole m = true := by
      simp only [List.all_cons, Bool.and_eq_true] at hv
      exact hv.1
    by_cases hs : m.role = "system"
    · simp only [splitGo, midConv, if_pos hs, if_neg hconv]
      exact ih sysParts (pending ++ [m.content]) conv hv' hconv
    · by_cases hu : m.role = "user"
      · simp only [splitGo, midConv, if_neg hs, if_pos hu]
        refine Eq.trans (ih sysParts [] _ hv' (by simp)) ?_
        simp [List.append_assoc]
      · by_cases ha : m.role = "assistant"
        · simp only [splitGo, midConv, if_neg hs, if_neg hu, if_pos ha]
          refine Eq.trans (ih sysParts pending _ hv' (by simp)) ?_
          simp [List.append_assoc]
        · exfalso
          simp [validRole, hs, hu, ha] at hm

/-- While the conversation accumulator is empty, the splitter collects the
leading system messages and then hands over to the conversation phase. -/
theorem splitGo_lead_phase :
    ∀ (msgs : List ChatMsg) (sysParts : List String),
      msgs.all validRole = true →
      splitGo sysParts [] [] msgs =
        (sysParts ++ (msgs.takeWhile (fun m => m.role = "system")).map (·.content),
         midConv [] (msgs.dropWhile (fun m => m.role = "system"))) := by
  intro msgs
  induction msgs with
  | nil =>
    intro sysParts _
    simp [splitGo, midConv]
  | cons m rest ih =>
    intro sysParts hv
    have hv' : rest.all validRole = true := by
      simp only [List.all_cons, Bool.and_eq_true] at hv
      exact hv.2
    have hm : validRole m = true := by
      simp only [List.all_cons, Bool.and_eq_true] at hv
      exact hv.1
    by_cases hs : m.role = "system"
    · have hsd : decide (m.role = "system") = true := by simp [hs]
      simp only [splitGo, List.takeWhile_cons, List.dropWhile_cons, hsd,
        if_pos hs, if_true]
      rw [ih (sysParts ++ [m.content]) hv']
      simp [List.append_assoc]
    · have hsd : decide (m.role = "system") = false := by simp [hs]
      by_cases hu : m.role = "user"
      · simp only [splitGo, List.takeWhile_cons, List.dropWhile_cons, hsd,
          if_neg hs, if_pos hu, Bool.false_eq_true, if_false]
        refine Eq.trans (splitGo_conv_phase rest sysParts [] _ hv' (by simp)) ?_
        simp [midConv, if_neg hs, if_pos hu]
      · by_cases ha : m.role = "assistant"
        · simp only [splitGo, List.takeWhile_cons, List.dropWhile_cons, hsd,
            if_neg hs, if_neg hu, if_pos ha, Bool.false_eq_true, if_false]
          refine Eq.trans (splitGo_conv_phase rest sysParts [] _ hv' (by simp)) ?_
          simp [midConv, if_neg hs, if_neg hu, if_pos ha]
        · exfalso
          simp [validRole, hs, hu, ha] at hm

/-- Every message `midConv` emits is a user or assistant turn (given valid
input roles). -/
theorem midConv_roles :
    ∀ (l : List ChatMsg) (pending : List String), l.all validRole = true →
      ∀ m ∈ midConv pending l, m.role = "user" ∨ m.role = "assistant" := by
  intro l
  induction l with
  | nil =>
    intro pending _ m hm
    simp [midConv] at hm
  | cons x rest ih =>
    intro pending hv m hm
    have hv' : rest.all validRole = true := by
      simp only [List.all_cons, Bool.and_eq_true] at hv
      exact hv.2
    have hx : validRole x = true := by
      simp only [List.all_cons, Bool.and_eq_true] at hv
      exact hv.1
    by_cases hs : x.role = "system"
    · simp only [midConv, if_pos hs] at hm
      exact ih (pending ++ [x.content]) hv' m hm
    · by_cases hu : x.role = "user"
      · simp only [midConv, if_neg hs, if_pos hu] at hm
        rcases List.mem_cons.1 hm with h | h
        · exact Or.inl (by rw [h])
        · exact ih [] hv' m h
      · have ha : x.role = "assistant" := by
          simp [validRole, hs, hu] at hx
          exact hx
        simp only [midConv, if_neg hs, if_neg hu] at hm
        rcases List.mem_cons.1 hm with h | h
        · exact Or.inr (by rw [h, ha])
        · exact ih pending hv' m h

/-- C9: for every OpenAI-style message list (roles among system, user,
assistant), the Anthropic chat service's splitter moves the system messages
preceding the first user/assistant turn into the top-level system parameter
(joined with blank lines), prepends buffered mid-conversation system
content to the next user message, and produces a conversation containing
only user and assistant roles in their original relative order — i.e. it
equals the reference function built from the spec's words, and every
emitted message is a user or assistant turn. -/
theorem c9_provider_message_splitting (msgs : List ChatMsg)
    (hv : msgs.all validRole = true) :
    splitMessages msgs = splitMessagesSpec msgs ∧
    ∀ m ∈ (splitMessages msgs).2, m.role = "user" ∨ m.role = "assistant" := by
  have heq : splitMessages msgs = splitMessagesSpec msgs := by
    simp only [splitMessages, splitMessagesSpec]
    rw [splitGo_lead_phase msgs [] hv]
    simp
  refine ⟨heq, ?_⟩
  rw [heq]
  have hv2 : (msgs.dropWhile (fun m => m.role = "system")).all validRole = true := by
    rw [List.all_eq_true] at hv ⊢
    intro m hm
    exact hv m ((List.dropWhile_sublist _).subset hm)
  exact midConv_roles _ [] hv2

/-- C9 witness: the theorem applied to a concrete message list with leading
and mid-conversation system messages. -/
theorem c9_provider_message_splitting_witness :
    chatMsgsW.all validRole = true ∧
    (splitMessages chatMsgsW = splitMessagesSpec chatMsgsW ∧
     ∀ m ∈ (splitMessages chatMsgsW).2, m.role = "user" ∨ m.role = "assistant") :=
  ⟨by decide, c9_provider_message_splitting chatMsgsW (by decide)⟩

/-! ## Claim C1 — fact priority of the answer prompt -/

/-- C1: the merged context placed in the answer-mode user prompt is the
dynamic block, then `"\n\n"`, then the static block when both are
non-empty, and otherwise whichever is non-empty; and the built answer-mode
user prompt contains the dynamic block strictly before the static document
block — it decomposes as `pre ++ dynamic ++ "\n\n" ++ rstrip(static) ++
post` (the formatter's `.strip()` removes the static block's trailing
newline, nothing else).  The hypotheses hold for every block the program
builds: `search_dynamic_kb` output starts with the non-whitespace header
`──`, and every non-empty `build_context` output keeps content under a
right strip. -/
theorem c1_fact_priority (dyn doc : String) (h1 : dyn ≠ "")
    (h3 : pyLstrip dyn = dyn) (h4 : pyRstrip doc ≠ "") :
    mergeContext dyn doc = dyn ++ "\n\n" ++ doc ∧
    (∀ s, mergeContext s "" = s) ∧
    (∀ s, mergeContext "" s = s) ∧
    (∀ question dealContext, ∃ pre post,
      formatAnswerPrompt question (mergeContext dyn doc) dealContext =
        pre ++ (dyn ++ "\n\n" ++ pyRstrip doc) ++ post) := by
  have h2 : doc ≠ "" := by
    intro hc
    rw [hc] at h4
    exact h4 rfl
  have hmerge : mergeContext dyn doc = dyn ++ "\n\n" ++ doc := by
    simp [mergeContext, h1, h2]
  refine ⟨hmerge, ?_, ?_, ?_⟩
  · intro s
    by_cases hs : s = "" <;> simp [mergeContext, hs]
  · intro s
    simp [mergeContext]
  · intro question dealContext
    rw [hmerge]
    have hstrip : pyStrip (dyn ++ "\n\n" ++ doc) = dyn ++ "\n\n" ++ pyRstrip doc :=
      pyStrip_merged dyn doc h1 h3 h4
    have hmne : dyn ++ "\n\n" ++ doc ≠ "" :=
      str_append_ne_empty_left _ _ (str_append_ne_empty_left _ _ h1)
    have hsne : dyn ++ "\n\n" ++ pyRstrip doc ≠ "" :=
      str_append_ne_empty_left _ _ (str_append_ne_empty_left _ _ h1)
    have hcond : dyn ++ "\n\n" ++ doc ≠ "" ∧
        pyStrip (dyn ++ "\n\n" ++ doc) ≠ "" := ⟨hmne, by rw [hstrip]; exact hsne⟩
    unfold formatAnswerPrompt
    rw [if_pos hcond, hstrip]
    apply pyJoin_mem_decomp
    refine List.mem_append.2 (Or.inl (List.mem_append.2 (Or.inr ?_)))
    simp

/-- C1 witness: the theorem applied to concrete dynamic and static blocks
of exactly the shape the program emits (both with their trailing
newlines). -/
theorem c1_fact_priority_witness :
    (dynBlockW ≠ "" ∧ pyLstrip dynBlockW = dynBlockW ∧
      pyRstrip docBlockW ≠ "") ∧
    (mergeContext dynBlockW docBlockW = dynBlockW ++ "\n\n" ++ docBlockW ∧
     (∀ s, mergeContext s "" = s) ∧
     (∀ s, mergeContext "" s = s) ∧
     (∀ question dealContext, ∃ pre post,
       formatAnswerPrompt question (mergeContext dynBlockW docBlockW) dealContext =
         pre ++ (dynBlockW ++ "\n\n" ++ pyRstrip docBlockW) ++ post)) :=
  ⟨⟨by decide, by decide, by decide⟩,
   c1_fact_priority dynBlockW docBlockW (by decide) (by decide) (by decide)⟩

/-! ## Claim C6 — query rewriter failure fallback -/

/-- C6 counterexample: with a two-message history and the vague follow-up
"What about revenue?" (the gate passes), a failing LLM completion makes
`enhance_query` propagate the error instead of returning the current
question unchanged. -/
theorem c6_counterexample :
    enhanceQuery (.error ()) "What about revenue?" msgsTwo = .error () ∧
    enhanceQuery (.error ()) "What about revenue?" msgsTwo ≠
      .ok "What about revenue?" := by decide

/-- C6 amended: when the history has at least two messages and the
vagueness gate fires, a failing LLM completion propagates out of
`enhance_query` (there is no try/except around the call; the orchestrator
turns it into QUERY_FAILED); the current question is returned unchanged
only when the gate does not pass. -/
theorem c6_amended (e : Unit) (q : String) (history : List Msg)
    (hlen : ¬ history.length < 2) (hgate : needsEnhancement q = true) :
    enhanceQuery (.error e) q history = .error e := by
  simp [enhanceQuery, hlen, hgate]

/-- C6 witness: the amended theorem applied at the concrete input. -/
theorem c6_amended_witness :
    (¬ msgsTwo.length < 2 ∧ needsEnhancement "What about revenue?" = true) ∧
    enhanceQuery (.error ()) "What about revenue?" msgsTwo = .error () :=
  ⟨by decide, c6_amended () "What about revenue?" msgsTwo (by decide) (by decide)⟩

/-! ## Claim C2 — multi-part answer decomposition (spec scenario 3) -/

/-- C2: evaluation of the pipeline at the scenario input.  The request does
return `draft_email` and stores the full Q&A row and three atomic rows
under the claimed focused template questions, but the stored answers are
`"$25K."` (trailing period kept, the answer ends with `.` and the
terminator search looks for `". "`) and `"s would be Next Tuesday"` (the
singular signal `"payment date"` matches inside `"payment dates"` first, so
extraction starts before the trailing `s` and the connector
`" would be "` is not recognised), not the claimed `"$25K"` and
`"Next Tuesday"`. -/
theorem c2_decomposition_scenario :
    (answerQuestion oracleA scenario3Answer none needsInfoHistory dealsD []
        5 (1/2)).map
      (fun r => (r.responseType, r.facts.map (fun f => (f.question, f.answer)))) =
    .ok ("draft_email",
      [(some investorQ3, some scenario3Answer),
       (some "What is the minimum ticket size for D?", some "$25K."),
       (some "What are the payment dates for D?", some "s would be Next Tuesday"),
       (some "What is the investment structure for D?", some "SPV")]) := by decide

/-! ## Claim C3 — greeting after needs_info (spec scenario 4) -/

/-- C3: evaluation of the pipeline at the scenario input.  "Hello" after a
pending `needs_info` does return `response_type=answer` with the greeting
reply and writes no dynamic fact, but persisting the greeting makes the
greeting the newest assistant message, so `_get_pending_question` returns
`None` afterwards: the pending needs_info state is *not* preserved, and the
next non-greeting user message ("Minimum ticket would be $25K.") runs the
normal pipeline (`answer`, no fact stored) instead of being treated as the
supplied answer. -/
theorem c3_greeting_clears_pending :
    getPendingQuestion needsInfoHistory = some investorQ3 ∧
    answerQuestion oracleA "Hello" none needsInfoHistory dealsSpaceX [] 5 (1/2) =
      .ok { responseType := "answer", body := "Hi there! Ready to help.",
            history := historyAfterGreeting, facts := [] } ∧
    getPendingQuestion historyAfterGreeting = none ∧
    (answerQuestion oracleA "Minimum ticket would be $25K." none
        historyAfterGreeting dealsSpaceX [] 5 (1/2)).map
      (fun r => (r.responseType, r.facts)) = .ok ("answer", []) := by decide

/-! ## Claim C4 — clarification persistence -/

/-- C4 counterexample: at the spec's own scenario-1 input the pipeline
returns `needs_clarification`, but the assistant message is persisted with
`metadata.type = "clarification"`, not `"needs_clarification"` as the claim
states. -/
theorem c4_counterexample :
    (answerQuestion oracleA "What is the minimum ticket?" none [] dealsTwo []
        5 (1/2)).map
      (fun r => (r.responseType,
        (r.history.getLast?).bind (fun m => mget m.metadata "type"),
        (r.history.getLast?).bind (fun m => mget m.metadata "original_question"))) =
      .ok ("needs_clarification", some "clarification",
           some "What is the minimum ticket?") ∧
    some "clarification" ≠ some "needs_clarification" := by decide

/-- C4 amended: whenever the clarifier decides a clarifying question is
needed (and the greeting and pending-answer branches did not fire and the
rewriter succeeded), the request returns `response_type =
needs_clarification` and the assistant message is persisted with metadata
`{type: "clarification", original_question: question}` (type tag
`"clarification"`, not `"needs_clarification"`; no `deal_id`). -/
theorem c4_amended (o : Oracle) (question : String) (dealArg : Option Nat)
    (history : List Msg) (deals : List Deal) (facts : List DynamicFact)
    (topK : Nat) (thr : ℚ) (eq cq : String)
    (h1 : isGreeting question = false)
    (h2 : ((getPendingQuestion history).isSome &&
           dealTruthy (resolveActiveDeal dealArg question deals history) &&
           !isNewQuestion question) = false)
    (h3 : enhanceQuery o.enhanceLLM question history = .ok eq)
    (h4 : needsClarification question o.chunks.length (calcConfidence o.chunks)
            (inferDealFromChunks (resolveActiveDeal dealArg question deals history)
              o.chunks).isSome = true)
    (h5 : generateClarifyingQuestion o.clarifyLLM question
            (deals.map (·.deal_name)) = .ok cq) :
    answerQuestion o question dealArg history deals facts topK thr =
      .ok { responseType := "needs_clarification", body := cq,
            history := history ++
              [⟨"user", question,
                resolveActiveDeal dealArg question deals history, []⟩,
               ⟨"assistant", cq, none,
                [("type", "clarification"), ("original_question", question)]⟩],
            facts := facts } := by
  simp [answerQuestion, h1, h2, h3, h4, h5]

/-- C4 witness: the amended theorem applied at the scenario-1 input. -/
theorem c4_amended_witness :
    (isGreeting "What is the minimum ticket?" = false ∧
     ((getPendingQuestion ([] : List Msg)).isSome &&
       dealTruthy (resolveActiveDeal none "What is the minimum ticket?" dealsTwo []) &&
       !isNewQuestion "What is the minimum ticket?") = false ∧
     enhanceQuery oracleA.enhanceLLM "What is the minimum ticket?" [] =
       .ok "What is the minimum ticket?" ∧
     needsClarification "What is the minimum ticket?" oracleA.chunks.length
       (calcConfidence oracleA.chunks)
       (inferDealFromChunks
         (resolveActiveDeal none "What is the minimum ticket?" dealsTwo [])
         oracleA.chunks).isSome = true ∧
     generateClarifyingQuestion oracleA.clarifyLLM "What is the minimum ticket?"
       (dealsTwo.map (·.deal_name)) =
       .ok "Happy to help! Are you asking about SpaceX or Anthropic?") ∧
    answerQuestion oracleA "What is the minimum ticket?" none [] dealsTwo [] 5 (1/2) =
      .ok { responseType := "needs_clarification",
            body := "Happy to help! Are you asking about SpaceX or Anthropic?",
            history :=
              [⟨"user", "What is the minimum ticket?", none, []⟩,
               ⟨"assistant", "Happy to help! Are you asking about SpaceX or Anthropic?",
                none,
                [("type", "clarification"),
                 ("original_question", "What is the minimum ticket?")]⟩],
            facts := [] } :=
  ⟨⟨by decide, by decide, by decide, by decide, by decide⟩, by
    have := c4_amended oracleA "What is the minimum ticket?" none [] dealsTwo []
      5 (1/2) "What is the minimum ticket?"
      "Happy to help! Are you asking about SpaceX or Anthropic?"
      (by decide) (by decide) (by decide) (by decide) (by decide)
    simpa using this⟩

end ODP
